import Mathlib

/-!
# Verification of the Urban Art cart and checkout core

A shallow embedding of the cart state machine (`cart.js`, class
`ShoppingCart`) and of the server-side checkout/webhook handlers
(`server.js`), with theorems settling the frozen claims about them.

JavaScript runtime values are modelled by the inductive `JSValue`:
numbers are rationals plus an explicit `nan` constructor (the program
performs no arithmetic that leaves the rationals other than producing
`NaN`), objects are association lists of string keys.  Cart items are
kept as `JSValue` objects throughout, exactly as the source keeps the
parsed JSON objects, so that items loaded from storage (which may carry
extra or missing optional fields) are representable.
-/

namespace UrbanArt

/-- A JavaScript runtime value, as used by the cart and server code.
`num` carries a rational; `nan` models the JS `NaN` number.  String
coercion of objects and numeric coercion of strings are not needed on
any value the modelled code paths reach and are approximated (see the
comments at `jsToString` and `toNumber`). -/
inductive JSValue where
  | null : JSValue
  | undefined : JSValue
  | bool : Bool → JSValue
  | num : ℚ → JSValue
  | nan : JSValue
  | str : String → JSValue
  | arr : List JSValue → JSValue
  | obj : List (String × JSValue) → JSValue

namespace JSValue

/-- JS truthiness: `false`, `0`, `NaN`, `""`, `null`, `undefined` are
falsy; every object and array is truthy. -/
def truthy : JSValue → Bool
  | .null => false
  | .undefined => false
  | .bool b => b
  | .num q => q != 0
  | .nan => false
  | .str s => s != ""
  | .arr _ => true
  | .obj _ => true

/-- JS `typeof v === 'object'` (true for objects, arrays and `null`). -/
def isObjType : JSValue → Bool
  | .obj _ => true
  | .arr _ => true
  | .null => true
  | _ => false

/-- JS `typeof v === 'string'`. -/
def isStrType : JSValue → Bool
  | .str _ => true
  | _ => false

/-- JS `typeof v === 'number'` (true for ordinary numbers and `NaN`). -/
def isNumType : JSValue → Bool
  | .num _ => true
  | .nan => true
  | _ => false

/-- JS `Array.isArray v`. -/
def isArrType : JSValue → Bool
  | .arr _ => true
  | _ => false

/-- JS `v === undefined`. -/
def isUndefined : JSValue → Bool
  | .undefined => true
  | _ => false

/-- Property read `v[k]`: `undefined` on absent keys and on non-objects
(the modelled code never reads named properties off primitives or
arrays). -/
def getF : JSValue → String → JSValue
  | .obj fs, k =>
    match fs.find? (fun p => p.1 == k) with
    | some p => p.2
    | none => .undefined
  | _, _ => .undefined

/-- Updates key `k` in an association list (JS property assignment:
replace the existing binding, else append). -/
def setFields : List (String × JSValue) → String → JSValue → List (String × JSValue)
  | [], k, v => [(k, v)]
  | (k₀, v₀) :: rest, k, v =>
    if k₀ == k then (k, v) :: rest else (k₀, v₀) :: setFields rest k v

/-- Property write `v[k] = x` (a no-op on non-objects; the modelled code
only assigns properties of objects). -/
def setF : JSValue → String → JSValue → JSValue
  | .obj fs, k, v => .obj (setFields fs k v)
  | w, _, _ => w

/-- The string value of a `str`; the modelled code only calls this under
a `typeof v === 'string'` guard. -/
def strVal : JSValue → String
  | .str s => s
  | _ => ""

/-- Reads `v.length` of a string value (only read under a string guard). -/
def strLen : JSValue → Nat
  | .str s => s.length
  | _ => 0

/-- JS `ToNumber` on the values the modelled code compares or adds:
numbers map to themselves, `NaN` to `none`.  Numeric coercion of
strings, arrays and objects is not modelled (`none`, i.e. `NaN`): no
reachable cart state holds a quantity or price of those shapes. -/
def toNumber : JSValue → Option ℚ
  | .num q => some q
  | .nan => none
  | .bool b => some (if b then 1 else 0)
  | .null => some 0
  | _ => none

/-- JS `v >= c` for a numeric literal `c`; comparisons against `NaN` are
false, as in JS. -/
def numGE (v : JSValue) (c : ℚ) : Bool :=
  match v.toNumber with
  | some q => decide (c ≤ q)
  | none => false

/-- JS `v > c`; false on `NaN`. -/
def numGT (v : JSValue) (c : ℚ) : Bool :=
  match v.toNumber with
  | some q => decide (c < q)
  | none => false

/-- JS `v <= c`; false on `NaN`. -/
def numLE (v : JSValue) (c : ℚ) : Bool :=
  match v.toNumber with
  | some q => decide (q ≤ c)
  | none => false

/-- JS `v < c`; false on `NaN`. -/
def numLT (v : JSValue) (c : ℚ) : Bool :=
  match v.toNumber with
  | some q => decide (q < c)
  | none => false

/-- JS `v + 1` on the quantity field (in the source always an ordinary
number).  JS string concatenation for non-numeric operands is not
modelled: non-numbers yield `NaN`. -/
def jsIncr (v : JSValue) : JSValue :=
  match v.toNumber with
  | some q => .num (q + 1)
  | none => .nan

/-- JS `String(v)` for the values the cart stores.  Identity on strings
(the only case the theorems rely on); JS's exact decimal rendering of
non-integer numbers and array coercion are approximated. -/
def jsToString : JSValue → String
  | .str s => s
  | .bool true => "true"
  | .bool false => "false"
  | .null => "null"
  | .undefined => "undefined"
  | .nan => "NaN"
  | .num q => if q.den = 1 then toString q.num else toString q.num ++ "/" ++ toString q.den
  | .arr _ => ""
  | .obj _ => "[object Object]"

/-- JS `Number.isInteger v`. -/
def isIntegerJS : JSValue → Bool
  | .num q => q.den == 1
  | _ => false

end JSValue

/-- Evaluates `Number(v) || 0` — the coercion `addItem` applies to the product's
price: `NaN` and `0` fall back to `0`, every other number is kept. -/
def numOrZero (v : JSValue) : ℚ :=
  match v.toNumber with
  | some q => if q = 0 then 0 else q
  | none => 0

mutual

/-- The value `JSON.parse (JSON.stringify v)` denotes for a value with
no function fields: `NaN` serializes as `null`, `undefined`-valued
object fields are dropped, `undefined` array elements become `null`;
everything else round-trips unchanged. -/
def jnorm : JSValue → JSValue
  | .obj fs => .obj (jnormFields fs)
  | .arr xs => .arr (jnormArr xs)
  | .nan => .null
  | v => v

/-- Part of `jnorm` on object fields: `undefined`-valued fields are dropped. -/
def jnormFields : List (String × JSValue) → List (String × JSValue)
  | [] => []
  | (_k, .undefined) :: rest => jnormFields rest
  | (k, v) :: rest => (k, jnorm v) :: jnormFields rest

/-- Part of `jnorm` on array elements: `undefined` becomes `null`. -/
def jnormArr : List JSValue → List JSValue
  | [] => []
  | .undefined :: rest => .null :: jnormArr rest
  | v :: rest => jnorm v :: jnormArr rest

end

/-! ## Durable storage and the cart state (`cart.js`)

`localStorage` holds at most one string under `CART_CONFIG.STORAGE_KEY`.
`_loadCart` distinguishes exactly three classes of stored strings: the
empty string (falsy, so `if (!saved) return []` fires before parsing),
non-empty strings `JSON.parse` rejects, and non-empty strings parsing to
some value.  `StoredVal` records that classification. -/

/-- The stored cart record, classified by how `_loadCart` treats it. -/
inductive StoredVal where
  | emptyS : StoredVal
  | malformed : StoredVal
  | jsonOf : JSValue → StoredVal

/-- Constant `CART_CONFIG.MAX_QUANTITY_PER_ITEM`. -/
def maxQuantityPerItem : ℚ := 99

/-- Constant `CART_CONFIG.MAX_ITEMS`. -/
def maxItems : Nat := 50

/-- The cart's in-memory items together with the durable record
(`none` = no entry under the storage key). -/
structure CartState where
  items : List JSValue
  storage : Option StoredVal

/-- A fresh cart before anything is stored. -/
def emptyState : CartState := ⟨[], none⟩

/-- Method `ShoppingCart._isValidCartItem`: a truthy object whose `id` and
`name` are non-empty strings, whose `price` is a number `> 0` and whose
`quantity` is a number in `(0, 99]`. -/
def isValidCartItem (item : JSValue) : Bool :=
  item.truthy &&
  item.isObjType &&
  (item.getF "id").isStrType &&
  decide (0 < (item.getF "id").strLen) &&
  (item.getF "name").isStrType &&
  decide (0 < (item.getF "name").strLen) &&
  (item.getF "price").isNumType &&
  (item.getF "price").numGT 0 &&
  (item.getF "quantity").isNumType &&
  (item.getF "quantity").numGT 0 &&
  (item.getF "quantity").numLE maxQuantityPerItem

/-- Method `ShoppingCart._saveCart`: `JSON.stringify(this.items)` written under
the storage key.  The stored string is the one that later parses to
`jnorm (.arr items)`; it is never empty (stringify of an array yields at
least `"[]"`). -/
def saveRecord (items : List JSValue) : Option StoredVal :=
  some (.jsonOf (jnorm (.arr items)))

/-- Method `ShoppingCart._loadCart`, returning the loaded items and the
post-call storage record: a missing record loads as an empty cart; an
empty-string record is falsy and returns an empty cart before parsing
(leaving the record in place); a malformed record throws in
`JSON.parse`, so the catch wipes it; a parsed non-array wipes it; a
parsed array is filtered element-wise through `_isValidCartItem`. -/
def loadCart : Option StoredVal → List JSValue × Option StoredVal
  | none => ([], none)
  | some .emptyS => ([], some .emptyS)
  | some .malformed => ([], none)
  | some (.jsonOf v) =>
    match v with
    | .arr xs => (xs.filter isValidCartItem, some (.jsonOf (.arr xs)))
    | _ => ([], none)

/-- JS `item.id === productId` for the string `productId` the cart methods
receive: true exactly when the item's `id` field is that string. -/
def idEq (item : JSValue) (pid : String) : Bool :=
  match item.getF "id" with
  | .str t => t == pid
  | _ => false

/-- Method `ShoppingCart._findItem`: first item whose `id` strictly equals the
given product id. -/
def findItem (items : List JSValue) (pid : String) : Option JSValue :=
  items.find? (fun it => idEq it pid)

/-- In-place mutation of the item `_findItem` returns: rewrite the first
item matching `pid` with `f`, keeping every other item in place. -/
def bumpFirst (items : List JSValue) (pid : String) (f : JSValue → JSValue) :
    List JSValue :=
  match items with
  | [] => []
  | x :: xs => if idEq x pid then f x :: xs else x :: bumpFirst xs pid f

/-- The object `addItem` pushes for a new product: `String`-coerced id
and name, `Number(product.price) || 0` as price, optional fields
defaulted to the empty string, quantity `1`. -/
def newLineItem (product : JSValue) : JSValue :=
  .obj [
    ("id", .str (product.getF "id").strVal),
    ("name", .str (product.getF "name").jsToString),
    ("price", .num (numOrZero (product.getF "price"))),
    ("description", .str (if (product.getF "description").truthy
      then (product.getF "description").jsToString else "")),
    ("image", .str (if (product.getF "image").truthy
      then (product.getF "image").jsToString else "")),
    ("quantity", .num 1)]

/-- Method `ShoppingCart.addItem`.  Validation: `!product || typeof product.id
!== 'string' || !product.name` rejects.  An existing item's quantity is
incremented unless it is already `>= 99`; otherwise a fresh line item is
appended (unless 50 distinct items exist).  Success saves the cart.
Returns the boolean result and the new state. -/
def addItem (product : JSValue) (s : CartState) : Bool × CartState :=
  if !product.truthy || !(product.getF "id").isStrType ||
      !(product.getF "name").truthy then
    (false, s)
  else
    match findItem s.items ((product.getF "id").strVal) with
    | some existing =>
      if (existing.getF "quantity").numGE maxQuantityPerItem then
        (false, s)
      else
        (true,
          ⟨bumpFirst s.items ((product.getF "id").strVal)
              (fun it => it.setF "quantity" ((it.getF "quantity").jsIncr)),
            saveRecord (bumpFirst s.items ((product.getF "id").strVal)
              (fun it => it.setF "quantity" ((it.getF "quantity").jsIncr)))⟩)
    | none =>
      if maxItems ≤ s.items.length then
        (false, s)
      else
        (true,
          ⟨s.items ++ [newLineItem product],
            saveRecord (s.items ++ [newLineItem product])⟩)

/-- Method `ShoppingCart.removeItem`: filters out every item whose `id` equals
the given id (the filtered array replaces `this.items` either way), and
saves exactly when the length changed; returns whether it changed. -/
def removeItem (pid : String) (s : CartState) : Bool × CartState :=
  if (s.items.filter (fun it => !idEq it pid)).length ≠ s.items.length then
    (true, ⟨s.items.filter (fun it => !idEq it pid),
      saveRecord (s.items.filter (fun it => !idEq it pid))⟩)
  else
    (false, ⟨s.items.filter (fun it => !idEq it pid), s.storage⟩)

/-- JS `parseInt(q, 10)` on the numeric argument the cart's callers pass:
`NaN` stays `NaN`, other numbers are truncated toward zero (the decimal
rendering parseInt actually reads agrees with truncation on every value
this program passes; the exponent-notation quirk for tiny magnitudes is
not modelled). -/
def jsParseInt (q : Option ℚ) : Option Int :=
  q.map (fun x => if 0 ≤ x then ⌊x⌋ else -⌊-x⌋)

/-- Method `ShoppingCart.updateQuantity`: rejects `NaN` and negative parsed
quantities, delegates `0` to `removeItem`, rejects above `99`, else sets
the first matching item's quantity and saves (false when no item
matches). -/
def updateQuantity (pid : String) (q : Option ℚ) (s : CartState) :
    Bool × CartState :=
  match jsParseInt q with
  | none => (false, s)
  | some n =>
    if n < 0 then (false, s)
    else if n = 0 then removeItem pid s
    else if (99 : Int) < n then (false, s)
    else
      match findItem s.items pid with
      | some _ =>
        (true,
          ⟨bumpFirst s.items pid (fun it => it.setF "quantity" (.num (n : ℚ))),
            saveRecord (bumpFirst s.items pid
              (fun it => it.setF "quantity" (.num (n : ℚ))))⟩)
      | none => (false, s)

/-! ## Server-side checkout and webhook (`server.js`) -/

/-- A JSON HTTP response body, restricted to the shapes the modelled
handlers produce. -/
inductive ApiBody where
  | received : ApiBody
  | errBody : String → ApiBody
  | sessionBody : String → String → ApiBody

/-- An HTTP response: status code plus JSON body (`res.json` without an
explicit status defaults to `200`). -/
structure HttpRes where
  status : Nat
  body : ApiBody

/-- The element-wise loop of `validateCartItems`, carrying the index
used in the error messages; `none` means every element passed. -/
def validateItemsLoop : List JSValue → Nat → Option String
  | [], _ => none
  | item :: rest, i =>
    if !item.truthy || !item.isObjType then
      some ("Invalid item at index " ++ toString i)
    else if !(item.getF "name").truthy || !(item.getF "name").isStrType ||
        decide (200 < (item.getF "name").strLen) then
      some ("Invalid item name at index " ++ toString i)
    else if !(item.getF "price").isNumType || (item.getF "price").numLE 0 ||
        (item.getF "price").numGT 1000000 then
      some ("Invalid price at index " ++ toString i)
    else if !(item.getF "quantity").isUndefined &&
        (!(item.getF "quantity").isIntegerJS ||
          (item.getF "quantity").numLT 1 || (item.getF "quantity").numGT 100) then
      some ("Invalid quantity at index " ++ toString i)
    else if (item.getF "description").truthy &&
        !(item.getF "description").isStrType then
      some ("Invalid description at index " ++ toString i)
    else
      validateItemsLoop rest (i + 1)

/-- Function `validateCartItems` (server): `some err` is the `{valid: false,
error}` result, `none` is `{valid: true}`.  The leading `!items ||
!Array.isArray(items)` test collapses to the non-array case because
every array is truthy. -/
def validateCartItems (items : JSValue) : Option String :=
  match items with
  | .arr xs =>
    if xs.length = 0 then some "Cart cannot be empty"
    else if 100 < xs.length then some "Too many items in cart (max 100)"
    else validateItemsLoop xs 0
  | _ => some "Items must be an array"

/-- The `POST /api/create-checkout-session` handler.  `stripeResult` is
the outcome of the single `stripe.checkout.sessions.create` call
(external); the returned flag records whether that call was reached.
Validation failure answers `400` with the validator's error and never
touches the processor; a processor failure is caught and answered as a
generic `500`. -/
def createCheckoutSession (body : JSValue)
    (stripeResult : Except String (String × String)) : HttpRes × Bool :=
  match validateCartItems (body.getF "items") with
  | some err => (⟨400, .errBody err⟩, false)
  | none =>
    match stripeResult with
    | .ok (sid, url) => (⟨200, .sessionBody sid url⟩, true)
    | .error _ =>
      (⟨500, .errBody "Unable to create checkout session. Please try again."⟩, true)

/-- A verified Stripe event: its `type` string and its `data.object`
payload. -/
structure StripeEvent where
  type : String
  payload : JSValue

/-- The `switch (event.type)` dispatch of the webhook route.
`handleCheckoutComplete` and `handlePaymentFailed` only log today but
`await` work whose failure the surrounding `try/catch` must absorb, so
their outcomes are oracle parameters; the `payment_intent.succeeded` and
default branches only call the logger and cannot throw. -/
def dispatchEvent (ev : StripeEvent)
    (onCheckoutComplete onPaymentFailed : JSValue → Except String Unit) :
    Except String Unit :=
  if ev.type = "checkout.session.completed" then onCheckoutComplete ev.payload
  else if ev.type = "payment_intent.succeeded" then .ok ()
  else if ev.type = "payment_intent.payment_failed" then onPaymentFailed ev.payload
  else .ok ()

/-- The `POST /webhook` handler.  `sig` is the `stripe-signature`
header; `constructEvent` is the outcome of
`stripe.webhooks.constructEvent` on the raw body (external, `.error` =
verification threw).  Returns the response together with the dispatch
record: `none` when the switch was never reached, otherwise the
dispatched event type and the handler outcome — which the `try/catch`
discards, so the acknowledgment below it is sent regardless. -/
def webhookRoute (sig : Option String)
    (constructEvent : Except String StripeEvent)
    (onCheckoutComplete onPaymentFailed : JSValue → Except String Unit) :
    HttpRes × Option (String × Except String Unit) :=
  match sig with
  | none => (⟨400, .errBody "Missing signature"⟩, none)
  | some _ =>
    match constructEvent with
    | .error _ => (⟨400, .errBody "Invalid signature"⟩, none)
    | .ok ev =>
      (⟨200, .received⟩,
        some (ev.type, dispatchEvent ev onCheckoutComplete onPaymentFailed))

/-! ## Derived notions used by the claims -/

/-- The `id` field of a cart item. -/
def idOf (it : JSValue) : JSValue := it.getF "id"

/-- The cart invariant of the spec: no two items share an `id`. -/
def idsUnique (items : List JSValue) : Prop :=
  (items.map idOf).Pairwise (· ≠ ·)

/-- One mutation of the cart through its public operations. -/
inductive CartStep : CartState → CartState → Prop where
  | add (p : JSValue) (s : CartState) : CartStep s (addItem p s).2
  | remove (pid : String) (s : CartState) : CartStep s (removeItem pid s).2
  | update (pid : String) (q : Option ℚ) (s : CartState) :
      CartStep s (updateQuantity pid q s).2

/-- Reachability through any sequence of cart mutations. -/
inductive CartReach : CartState → CartState → Prop where
  | refl (s : CartState) : CartReach s s
  | tail {s t u : CartState} : CartReach s t → CartStep t u → CartReach s u

/-! ## Concrete values used by counterexamples and witnesses -/

/-- A well-formed stored cart item. -/
def sampleItem : JSValue :=
  .obj [("id", .str "a"), ("name", .str "art"), ("price", .num 5),
    ("quantity", .num 1)]

/-- A product with a non-empty id and name but no `price` field. -/
def productNoPrice : JSValue :=
  .obj [("id", .str "p1"), ("name", .str "art")]

/-- A product whose id is the empty string. -/
def productEmptyId : JSValue :=
  .obj [("id", .str ""), ("name", .str "art"), ("price", .num 5)]

/-- A cart item with id `"m"` holding the maximal quantity `99`. -/
def itemAtMax : JSValue :=
  .obj [("id", .str "m"), ("name", .str "max"), ("price", .num 10),
    ("quantity", .num 99)]

/-- The same item at quantity `1`. -/
def itemAtOne : JSValue :=
  .obj [("id", .str "m"), ("name", .str "max"), ("price", .num 10),
    ("quantity", .num 1)]

/-- A product with the id `"m"`. -/
def productAtMax : JSValue :=
  .obj [("id", .str "m"), ("name", .str "max"), ("price", .num 10)]

/-- A one-item cart at the quantity limit. -/
def stateAtMax : CartState := ⟨[itemAtMax], none⟩

/-- A one-item cart below the quantity limit. -/
def stateAtOne : CartState := ⟨[itemAtOne], none⟩

/-- A request body whose `items` is the empty array. -/
def bodyEmptyItems : JSValue := .obj [("items", .arr [])]

/-- A request body whose `items` holds 101 elements. -/
def bodyTooMany : JSValue := .obj [("items", .arr (List.replicate 101 .null))]

/-! ## Helper lemmas -/

theorem setFields_find_ne (fs : List (String × JSValue)) (k k' : String)
    (v : JSValue) (h : k ≠ k') :
    (JSValue.setFields fs k' v).find? (fun p => p.1 == k) =
      fs.find? (fun p => p.1 == k) := by
  induction fs with
  | nil =>
    have hk : (k' == k) = false := by
      rw [beq_eq_false_iff_ne]
      exact fun e => h e.symm
    simp [JSValue.setFields, List.find?, hk]
  | cons hd tl ih =>
    obtain ⟨k₀, v₀⟩ := hd
    by_cases hk : k₀ = k'
    · subst hk
      simp only [JSValue.setFields, beq_self_eq_true, if_true, List.find?]
      have hkk : (k₀ == k) = false := by
        rw [beq_eq_false_iff_ne]
        exact fun e => h e.symm
      simp [hkk]
    · simp only [JSValue.setFields, List.find?]
      rw [if_neg (by simpa [beq_iff_eq] using hk)]
      simp only [List.find?]
      cases hkk : (k₀ == k) with
      | true => rfl
      | false => exact ih

theorem getF_setF_ne (it : JSValue) (k k' : String) (v : JSValue)
    (h : k ≠ k') : (it.setF k' v).getF k = it.getF k := by
  cases it <;> simp only [JSValue.setF]
  case obj fs =>
    simp only [JSValue.getF, setFields_find_ne fs k k' v h]

theorem idOf_setF_quantity (it : JSValue) (v : JSValue) :
    idOf (it.setF "quantity" v) = idOf it :=
  getF_setF_ne it "id" "quantity" v (by decide)

theorem idEq_true_iff (it : JSValue) (pid : String) :
    idEq it pid = true ↔ it.getF "id" = .str pid := by
  unfold idEq
  cases h : it.getF "id" <;> simp

theorem map_idOf_bumpFirst (xs : List JSValue) (pid : String)
    (f : JSValue → JSValue) (hf : ∀ x, idOf (f x) = idOf x) :
    (bumpFirst xs pid f).map idOf = xs.map idOf := by
  induction xs with
  | nil => rfl
  | cons hd tl ih =>
    by_cases h : idEq hd pid = true
    · simp [bumpFirst, h, hf]
    · simp [bumpFirst, h, ih]

theorem mem_bumpFirst {xs : List JSValue} {pid : String}
    {f : JSValue → JSValue} {x : JSValue} (hx : x ∈ bumpFirst xs pid f) :
    x ∈ xs ∨ ∃ y ∈ xs, x = f y := by
  induction xs with
  | nil => simp [bumpFirst] at hx
  | cons hd tl ih =>
    by_cases h : idEq hd pid = true
    · simp only [bumpFirst, h, if_true] at hx
      rcases List.mem_cons.mp hx with h1 | h1
      · exact Or.inr ⟨hd, List.mem_cons_self hd tl, h1⟩
      · exact Or.inl (List.mem_cons_of_mem hd h1)
    · simp only [bumpFirst, h, if_false] at hx
      rcases List.mem_cons.mp hx with h1 | h1
      · exact Or.inl (h1 ▸ List.mem_cons_self hd tl)
      · rcases ih h1 with h2 | ⟨y, hy, h2⟩
        · exact Or.inl (List.mem_cons_of_mem hd h2)
        · exact Or.inr ⟨y, List.mem_cons_of_mem hd hy, h2⟩

theorem find?_decomp {α : Type} (p : α → Bool) (xs : List α) (a : α)
    (h : xs.find? p = some a) :
    ∃ pre post, xs = pre ++ a :: post ∧ ∀ x ∈ pre, p x = false := by
  induction xs with
  | nil => simp at h
  | cons hd tl ih =>
    cases hp : p hd with
    | true =>
      rw [List.find?, hp] at h
      obtain rfl : hd = a := by injection h
      exact ⟨[], tl, rfl, by simp⟩
    | false =>
      rw [List.find?, hp] at h
      obtain ⟨pre, post, heq, hpre⟩ := ih h
      refine ⟨hd :: pre, post, by rw [heq]; rfl, ?_⟩
      intro x hx
      rcases List.mem_cons.mp hx with rfl | hx
      · exact hp
      · exact hpre x hx

theorem bumpFirst_append (pre post : List JSValue) (it : JSValue)
    (pid : String) (f : JSValue → JSValue)
    (hpre : ∀ x ∈ pre, idEq x pid = false) (hit : idEq it pid = true) :
    bumpFirst (pre ++ it :: post) pid f = pre ++ f it :: post := by
  induction pre with
  | nil => simp [bumpFirst, hit]
  | cons hd tl ih =>
    have h0 : idEq hd pid = false := hpre hd (List.mem_cons_self hd tl)
    simp only [List.cons_append, bumpFirst, h0]
    simp only [Bool.false_eq_true, if_false, List.cons.injEq, true_and]
    exact ih (fun x hx => hpre x (List.mem_cons_of_mem hd hx))

theorem addItem_found (s : CartState) (product existing : JSValue)
    (hvalid : (!product.truthy || !(product.getF "id").isStrType ||
      !(product.getF "name").truthy) = false)
    (hfind : findItem s.items ((product.getF "id").strVal) = some existing) :
    addItem product s =
      if (existing.getF "quantity").numGE maxQuantityPerItem then (false, s)
      else
        (true,
          ⟨bumpFirst s.items ((product.getF "id").strVal)
              (fun x => x.setF "quantity" ((x.getF "quantity").jsIncr)),
            saveRecord (bumpFirst s.items ((product.getF "id").strVal)
              (fun x => x.setF "quantity" ((x.getF "quantity").jsIncr)))⟩) := by
  unfold addItem
  rw [if_neg (by simp [hvalid]), hfind]

theorem idsUnique_addItem (p : JSValue) (s : CartState)
    (h : idsUnique s.items) : idsUnique (addItem p s).2.items := by
  unfold addItem
  split
  · exact h
  · split
    · split
      · exact h
      · unfold idsUnique
        rw [map_idOf_bumpFirst _ _ _ (fun x => idOf_setF_quantity x _)]
        exact h
    · next hfind =>
      split
      · exact h
      · unfold idsUnique
        rw [List.map_append, List.pairwise_append]
        refine ⟨h, by simp, ?_⟩
        intro a ha b hb
        simp only [List.map_cons, List.map_nil, List.mem_singleton] at hb
        subst hb
        obtain ⟨x, hx, rfl⟩ := List.mem_map.mp ha
        have hne : ¬ idEq x ((p.getF "id").strVal) = true :=
          (List.find?_eq_none.mp hfind) x hx
        intro hcontra
        apply hne
        rw [idEq_true_iff]
        exact hcontra

theorem idsUnique_removeItem (pid : String) (s : CartState)
    (h : idsUnique s.items) : idsUnique (removeItem pid s).2.items := by
  have hsub : idsUnique (s.items.filter (fun it => !idEq it pid)) :=
    List.Pairwise.sublist (List.Sublist.map idOf (List.filter_sublist s.items)) h
  unfold removeItem
  split
  · exact hsub
  · exact hsub

theorem idsUnique_updateQuantity (pid : String) (q : Option ℚ)
    (s : CartState) (h : idsUnique s.items) :
    idsUnique (updateQuantity pid q s).2.items := by
  unfold updateQuantity
  split
  · exact h
  · split
    · exact h
    · split
      · exact idsUnique_removeItem pid s h
      · split
        · exact h
        · split
          · unfold idsUnique
            rw [map_idOf_bumpFirst _ _ _ (fun x => idOf_setF_quantity x _)]
            exact h
          · exact h

/-! ## Claim theorems -/

/-- C1 (counterexample): the claim fails for a cart produced by `load`
from an arbitrary stored record — a stored array holding two copies of
the same valid item loads as a cart with two LineItems of the same id,
because `_loadCart` validates elements independently and never
deduplicates. -/
theorem load_duplicate_ids_counterexample :
    (loadCart (some (.jsonOf (.arr [sampleItem, sampleItem])))).1 =
      [sampleItem, sampleItem] ∧
    ¬ idsUnique (loadCart (some (.jsonOf (.arr [sampleItem, sampleItem])))).1 := by
  refine ⟨rfl, ?_⟩
  intro h
  have h2 : idsUnique [sampleItem, sampleItem] := h
  simp [idsUnique] at h2

/-- C1 (amended): `add`, `remove` and `setQuantity` preserve
distinctness of item ids, so every cart reachable through them from a
cart whose ids are pairwise distinct (in particular the empty cart, or
any cart loaded from a duplicate-free record) never holds two LineItems
with the same id; repeated `add` on an existing id rewrites that item's
quantity in place and never appends a second item with its id. -/
theorem distinct_ids_preserved (s s' : CartState) (h : idsUnique s.items)
    (hr : CartReach s s') : idsUnique s'.items := by
  induction hr with
  | refl => exact h
  | tail _ step ih =>
    cases step with
    | add p => exact idsUnique_addItem p _ ih
    | remove pid => exact idsUnique_removeItem pid _ ih
    | update pid q => exact idsUnique_updateQuantity pid q _ ih

/-- C1 (witness): concretely, adding the same product twice to the
fresh empty cart yields a reachable state with pairwise-distinct ids. -/
theorem distinct_ids_preserved_witness :
    idsUnique ((addItem sampleItem (addItem sampleItem emptyState).2).2.items) := by
  apply distinct_ids_preserved emptyState
  · simp [idsUnique, emptyState]
  · exact CartReach.tail
      (CartReach.tail (CartReach.refl emptyState)
        (CartStep.add sampleItem emptyState))
      (CartStep.add sampleItem (addItem sampleItem emptyState).2)

/-- C9 (confirmed): for every cart state and id, `updateQuantity` with
quantity `0` is literally `removeItem`: the parsed quantity is `0`,
which is neither `NaN` nor negative, so the handler delegates, giving
the same result value and the same resulting state. -/
theorem setQuantity_zero_is_remove (s : CartState) (pid : String) :
    updateQuantity pid (some 0) s = removeItem pid s := by
  simp [updateQuantity, jsParseInt]

/-- C10 (confirmed): `removeItem` keeps exactly the items whose id
differs from the given id — deleting every match, preserving the order
of the rest — and returns `true` exactly when some item with that id
was present. -/
theorem removeItem_filters_all_matches (s : CartState) (pid : String) :
    (removeItem pid s).2.items = s.items.filter (fun it => !idEq it pid) ∧
    ((removeItem pid s).1 = true ↔ ∃ it ∈ s.items, idEq it pid = true) := by
  constructor
  · unfold removeItem
    split
    · rfl
    · rfl
  · unfold removeItem
    split
    · next hne =>
      have hlt : (s.items.filter (fun it => !idEq it pid)).length <
          s.items.length :=
        lt_of_le_of_ne (List.length_filter_le _ _) hne
      obtain ⟨x, hx, hpx⟩ := List.length_filter_lt_length_iff_exists.mp hlt
      exact iff_of_true rfl ⟨x, hx, by simpa using hpx⟩
    · next heq =>
      apply iff_of_false (by simp)
      rintro ⟨it, hit, hid⟩
      have hall := List.filter_length_eq_length.mp (not_not.mp heq) it hit
      simp [hid] at hall

/-- C3 (counterexample): a product whose id is the empty string passes
`addItem`'s validation — `typeof '' === 'string'` holds and only the
name is tested for truthiness — so it is accepted and appended, not
rejected. -/
theorem add_empty_id_accepted :
    productEmptyId.getF "id" = .str "" ∧
    (addItem productEmptyId emptyState).1 = true ∧
    (addItem productEmptyId emptyState).2.items ≠ [] := by
  refine ⟨rfl, rfl, ?_⟩
  intro h
  exact absurd h (List.cons_ne_nil _ _)

/-- C3 (amended): `addItem` rejects, returning `false` with the state
untouched, exactly the products its guard catches: a falsy product, an
id that is not a string, or a falsy name.  An empty-string id with a
truthy name is not caught (see the counterexample). -/
theorem add_rejects_invalid_product (s : CartState) (product : JSValue)
    (h : product.truthy = false ∨ (product.getF "id").isStrType = false ∨
      (product.getF "name").truthy = false) :
    addItem product s = (false, s) := by
  unfold addItem
  rcases h with h | h | h <;> simp [h]

/-- C3 (witness): the guard fires on `null` and on a product with a
numeric id. -/
theorem add_rejects_invalid_product_witness :
    addItem .null emptyState = (false, emptyState) ∧
    addItem (.obj [("id", .num 7), ("name", .str "x")]) emptyState =
      (false, emptyState) := by
  constructor
  · exact add_rejects_invalid_product emptyState .null (Or.inl rfl)
  · exact add_rejects_invalid_product emptyState _ (Or.inr (Or.inl rfl))

/-- C2 (counterexample): a product with a non-empty id and name but no
`price` field is accepted by `addItem`, and the stored LineItem's price
is `Number(undefined) || 0 = 0`, which is not strictly greater than
`0` — so not every accepted product yields a valid stored item. -/
theorem add_missing_price_accepted :
    productNoPrice.getF "price" = .undefined ∧
    (addItem productNoPrice emptyState).1 = true ∧
    ∃ it ∈ (addItem productNoPrice emptyState).2.items,
      (it.getF "price").numGT 0 = false := by
  refine ⟨rfl, rfl, newLineItem productNoPrice, ?_, rfl⟩
  show newLineItem productNoPrice ∈ [newLineItem productNoPrice]
  exact List.mem_singleton.mpr rfl

/-- C2 (amended): provided every item already in the cart has a numeric
price strictly greater than `0` and the product's own price is a number
strictly greater than `0`, every item in the cart after a successful
`addItem` again has price strictly greater than `0` (an increment never
touches the price field, and a fresh item stores `Number(price) || 0 =
price`).  The hypothesis on the product is necessary: a missing or zero
price is accepted and stored as `0`. -/
theorem add_keeps_positive_prices (s : CartState) (product : JSValue)
    (p : ℚ) (r : CartState)
    (hall : ∀ it ∈ s.items, (it.getF "price").numGT 0 = true)
    (hpr : product.getF "price" = .num p) (hp : 0 < p)
    (hr : addItem product s = (true, r)) :
    ∀ it ∈ r.items, (it.getF "price").numGT 0 = true := by
  unfold addItem at hr
  split at hr
  · exact absurd (congrArg Prod.fst hr) (by simp)
  · split at hr
    · split at hr
      · exact absurd (congrArg Prod.fst hr) (by simp)
      · obtain rfl : r = _ := (Prod.mk.injEq _ _ _ _ ▸ hr).2.symm
        intro it hit
        rcases mem_bumpFirst hit with hmem | ⟨y, hy, rfl⟩
        · exact hall it hmem
        · rw [getF_setF_ne y "price" "quantity" _ (by decide)]
          exact hall y hy
    · split at hr
      · exact absurd (congrArg Prod.fst hr) (by simp)
      · obtain rfl : r = _ := (Prod.mk.injEq _ _ _ _ ▸ hr).2.symm
        intro it hit
        rcases List.mem_append.mp hit with hmem | hmem
        · exact hall it hmem
        · obtain rfl : it = newLineItem product := List.mem_singleton.mp hmem
          have hz : numOrZero (product.getF "price") = p := by
            rw [hpr]
            simp [numOrZero, JSValue.toNumber, ne_of_gt hp]
          show (JSValue.numGT ((newLineItem product).getF "price") 0) = true
          have hfield : (newLineItem product).getF "price" =
              .num (numOrZero (product.getF "price")) := rfl
          rw [hfield, hz]
          simp [JSValue.numGT, JSValue.toNumber, hp]

/-- C2 (witness): adding a positively-priced product to a cart already
holding one positively-priced item keeps every price positive — in
particular the price of the freshly appended line item is positive. -/
theorem add_keeps_positive_prices_witness :
    ((newLineItem productEmptyId).getF "price").numGT 0 = true :=
  add_keeps_positive_prices ⟨[sampleItem], none⟩ productEmptyId 5
    (addItem productEmptyId ⟨[sampleItem], none⟩).2
    (fun it hit => by
      obtain rfl : it = sampleItem := List.mem_singleton.mp hit
      rfl)
    rfl (by norm_num) rfl (newLineItem productEmptyId)
    (List.mem_cons_of_mem sampleItem (List.mem_singleton.mpr rfl))

/-- C8 (confirmed): take any cart and a product passing `addItem`'s
guard whose id finds an existing item (under the cart invariant, the
item with that id).  If that item's quantity is `99 = MAX_QTY`, the
`quantity >= MAX_QTY` check rejects and the whole state is returned
untouched, so the quantity stays `99`; if its quantity is a number `q <
99`, the call succeeds and rewrites exactly that item's quantity to
`q + 1`, leaving every other item in place. -/
theorem add_at_max_quantity (s : CartState) (product : JSValue)
    (pid : String) (it : JSValue)
    (hp : product.truthy = true)
    (hid : product.getF "id" = .str pid)
    (hname : (product.getF "name").truthy = true)
    (hfind : findItem s.items pid = some it) :
    (it.getF "quantity" = .num maxQuantityPerItem →
      addItem product s = (false, s)) ∧
    (∀ q : ℚ, it.getF "quantity" = .num q → q < maxQuantityPerItem →
      (addItem product s).1 = true ∧
      ∃ pre post, s.items = pre ++ it :: post ∧
        (∀ x ∈ pre, idEq x pid = false) ∧
        (addItem product s).2.items =
          pre ++ (it.setF "quantity" (.num (q + 1))) :: post) := by
  have hvalid : (!product.truthy || !(product.getF "id").isStrType ||
      !(product.getF "name").truthy) = false := by
    simp [hp, hname, hid, JSValue.isStrType]
  have hstr : (product.getF "id").strVal = pid := by rw [hid]; rfl
  have hfound := addItem_found s product it hvalid (by rw [hstr]; exact hfind)
  rw [hstr] at hfound
  have hfind' : s.items.find? (fun x => idEq x pid) = some it := hfind
  constructor
  · intro hq
    rw [hfound, if_pos]
    rw [hq]
    simp [JSValue.numGE, JSValue.toNumber]
  · intro q hq hlt
    have hne : (it.getF "quantity").numGE maxQuantityPerItem = false := by
      rw [hq]
      simp [JSValue.numGE, JSValue.toNumber, not_le.mpr hlt]
    have hres : addItem product s =
        (true,
          ⟨bumpFirst s.items pid
              (fun x => x.setF "quantity" ((x.getF "quantity").jsIncr)),
            saveRecord (bumpFirst s.items pid
              (fun x => x.setF "quantity" ((x.getF "quantity").jsIncr)))⟩) := by
      rw [hfound, if_neg (by simp [hne])]
    obtain ⟨pre, post, hdecomp, hpre⟩ :=
      find?_decomp (fun x => idEq x pid) s.items it hfind'
    have hit : idEq it pid = true :=
      @List.find?_some JSValue (fun x => idEq x pid) it s.items hfind'
    refine ⟨by rw [hres], pre, post, hdecomp, hpre, ?_⟩
    rw [hres]
    show bumpFirst s.items pid
        (fun x => x.setF "quantity" ((x.getF "quantity").jsIncr)) =
      pre ++ (it.setF "quantity" (.num (q + 1))) :: post
    rw [hdecomp, bumpFirst_append pre post it pid _ hpre hit, hq]
    rfl

/-- C8 (witness): a single-item cart at quantity 99 rejects a matching
add unchanged, and the same cart at quantity 1 is bumped to 2. -/
theorem add_at_max_quantity_witness :
    (addItem productAtMax stateAtMax = (false, stateAtMax)) ∧
    ((addItem productAtMax stateAtOne).1 = true ∧
      ∃ pre post, stateAtOne.items = pre ++ itemAtOne :: post ∧
        (∀ x ∈ pre, idEq x "m" = false) ∧
        (addItem productAtMax stateAtOne).2.items =
          pre ++ (itemAtOne.setF "quantity" (.num (1 + 1))) :: post) := by
  constructor
  · exact (add_at_max_quantity stateAtMax productAtMax "m" itemAtMax
      rfl rfl rfl rfl).1 rfl
  · exact (add_at_max_quantity stateAtOne productAtMax "m" itemAtOne
      rfl rfl rfl rfl).2 1 rfl (by norm_num [maxQuantityPerItem])

/-- C5 (counterexample): a stored record holding the empty string is
unparsable JSON, yet `_loadCart` returns the empty cart through the
falsy-string early return before `JSON.parse` runs, so the corrupt
record is *not* wiped. -/
theorem load_empty_string_not_wiped :
    (loadCart (some .emptyS)).1 = [] ∧
    (loadCart (some .emptyS)).2 ≠ none := by
  exact ⟨rfl, fun h => Option.noConfusion h⟩

/-- C5 (amended): a missing record, a non-empty unparsable record, and
a record parsing to a non-array all load as the empty cart with the
record wiped; a record parsing to an array loads exactly its valid
elements in order, every invalid element silently dropped, with the
record left as is.  The one exception to the claim: a record holding
the empty string (also unparsable) loads as the empty cart but is left
in place, because the falsy-string early return precedes parsing. -/
theorem loadCart_cases (v : JSValue) (xs : List JSValue) :
    loadCart none = ([], none) ∧
    loadCart (some .malformed) = ([], none) ∧
    (v.isArrType = false → loadCart (some (.jsonOf v)) = ([], none)) ∧
    loadCart (some (.jsonOf (.arr xs))) =
      (xs.filter isValidCartItem, some (.jsonOf (.arr xs))) ∧
    loadCart (some .emptyS) = ([], some .emptyS) := by
  refine ⟨rfl, rfl, ?_, rfl, rfl⟩
  intro h
  cases v
  case arr l => simp [JSValue.isArrType] at h
  all_goals rfl

/-- C5 (witness): a record parsing to `null` is wiped; an array mixing
one valid and one invalid element keeps exactly the valid one. -/
theorem loadCart_cases_witness :
    loadCart (some (.jsonOf .null)) = ([], none) ∧
    loadCart (some (.jsonOf (.arr [sampleItem, .str "junk"]))) =
      ([sampleItem], some (.jsonOf (.arr [sampleItem, .str "junk"]))) := by
  constructor
  · exact (loadCart_cases JSValue.null []).2.2.1 rfl
  · have h := (loadCart_cases JSValue.null [sampleItem, .str "junk"]).2.2.2.1
    rw [h]
    rfl

theorem jnormArr_eq_self (xs : List JSValue)
    (h : ∀ x ∈ xs, jnorm x = x ∧ isValidCartItem x = true) :
    jnormArr xs = xs := by
  induction xs with
  | nil => rfl
  | cons hd tl ih =>
    obtain ⟨h1, h2⟩ := h hd (List.mem_cons_self hd tl)
    have htl := ih (fun x hx => h x (List.mem_cons_of_mem hd hx))
    cases hd
    case undefined => exact absurd h2 (by decide)
    all_goals simp only [jnormArr]
    all_goals rw [h1, htl]

/-- C6 (confirmed): for a cart composed solely of valid LineItems —
items passing `_isValidCartItem` whose data is plain JSON (strings and
numbers, as the LineItem model prescribes), so that
stringify-then-parse is the identity on them — saving and then loading
returns exactly the same cart, with every element kept by the load-time
filter in its original order. -/
theorem load_save_roundtrip (items : List JSValue)
    (h : ∀ it ∈ items, isValidCartItem it = true ∧ jnorm it = it) :
    loadCart (saveRecord items) = (items, saveRecord items) := by
  have harr : jnorm (.arr items) = .arr items := by
    show JSValue.arr (jnormArr items) = .arr items
    rw [jnormArr_eq_self items (fun x hx => ⟨(h x hx).2, (h x hx).1⟩)]
  unfold saveRecord
  rw [harr]
  show (items.filter isValidCartItem,
      some (StoredVal.jsonOf (JSValue.arr items))) =
    (items, some (StoredVal.jsonOf (JSValue.arr items)))
  rw [List.filter_eq_self.mpr (fun a ha => (h a ha).1)]

/-- C6 (witness): the round trip at a concrete valid one-item cart. -/
theorem load_save_roundtrip_witness :
    loadCart (saveRecord [sampleItem]) = ([sampleItem], saveRecord [sampleItem]) := by
  apply load_save_roundtrip
  intro it hit
  obtain rfl : it = sampleItem := List.mem_singleton.mp hit
  exact ⟨rfl, rfl⟩

/-- C4 (confirmed): the webhook route answers `400` with no event-type
dispatch when the signature header is missing and when signature
verification of the raw body throws; on every verified event — whatever
its type, and whatever the dispatched handler's outcome, including an
exception, which the `try/catch` absorbs after logging — it answers
`200 { received: true }`. -/
theorem webhook_responses (sig : Option String)
    (cev : Except String StripeEvent)
    (onCC onPF : JSValue → Except String Unit) :
    (sig = none →
      webhookRoute sig cev onCC onPF = (⟨400, .errBody "Missing signature"⟩, none)) ∧
    (∀ hs e, sig = some hs → cev = .error e →
      webhookRoute sig cev onCC onPF = (⟨400, .errBody "Invalid signature"⟩, none)) ∧
    (∀ hs ev, sig = some hs → cev = .ok ev →
      webhookRoute sig cev onCC onPF =
        (⟨200, .received⟩, some (ev.type, dispatchEvent ev onCC onPF))) := by
  refine ⟨?_, ?_, ?_⟩
  · rintro rfl
    rfl
  · rintro hs e rfl rfl
    rfl
  · rintro hs ev rfl rfl
    rfl

/-- C4 (witness): the three branches at concrete requests; in the
third, the `checkout.session.completed` handler raises and the response
is still the `200` acknowledgment. -/
theorem webhook_responses_witness :
    webhookRoute none (.ok ⟨"checkout.session.completed", .null⟩)
        (fun _ => .ok ()) (fun _ => .ok ()) =
      (⟨400, .errBody "Missing signature"⟩, none) ∧
    webhookRoute (some "t=1,v1=bad") (.error "bad signature")
        (fun _ => .ok ()) (fun _ => .ok ()) =
      (⟨400, .errBody "Invalid signature"⟩, none) ∧
    webhookRoute (some "t=1,v1=good")
        (.ok ⟨"checkout.session.completed", .null⟩)
        (fun _ => .error "handler blew up") (fun _ => .ok ()) =
      (⟨200, .received⟩,
        some ("checkout.session.completed", .error "handler blew up")) := by
  refine ⟨?_, ?_, ?_⟩
  · exact (webhook_responses none (.ok ⟨"checkout.session.completed", .null⟩)
      (fun _ => .ok ()) (fun _ => .ok ())).1 rfl
  · exact (webhook_responses (some "t=1,v1=bad") (.error "bad signature")
      (fun _ => .ok ()) (fun _ => .ok ())).2.1 _ _ rfl rfl
  · exact (webhook_responses (some "t=1,v1=good")
      (.ok ⟨"checkout.session.completed", .null⟩)
      (fun _ => .error "handler blew up") (fun _ => .ok ())).2.2 _ _ rfl rfl

/-- C7 (confirmed): the checkout-session endpoint rejects an empty
items array and an items array of more than 100 elements with a `400`
response carrying the validator's machine-readable reason, and in both
cases the Stripe session-creation call is never reached (the returned
flag is `false`), for every possible processor outcome. -/
theorem session_rejects_empty_and_oversized (body : JSValue)
    (xs : List JSValue) (sr : Except String (String × String))
    (hb : body.getF "items" = .arr xs) :
    (xs = [] →
      createCheckoutSession body sr =
        (⟨400, .errBody "Cart cannot be empty"⟩, false)) ∧
    (100 < xs.length →
      createCheckoutSession body sr =
        (⟨400, .errBody "Too many items in cart (max 100)"⟩, false)) := by
  constructor
  · rintro rfl
    unfold createCheckoutSession
    rw [hb]
    rfl
  · intro hlen
    have hv : validateCartItems (JSValue.arr xs) =
        some "Too many items in cart (max 100)" := by
      simp only [validateCartItems]
      rw [if_neg (by omega), if_pos hlen]
    unfold createCheckoutSession
    rw [hb, hv]

/-- C7 (witness): the empty-array body and a 101-element body are both
rejected without reaching the processor, even one that would have
answered successfully. -/
theorem session_rejects_empty_and_oversized_witness :
    createCheckoutSession bodyEmptyItems (.ok ("cs_test_1", "https://pay")) =
      (⟨400, .errBody "Cart cannot be empty"⟩, false) ∧
    createCheckoutSession bodyTooMany (.ok ("cs_test_1", "https://pay")) =
      (⟨400, .errBody "Too many items in cart (max 100)"⟩, false) := by
  constructor
  · exact (session_rejects_empty_and_oversized bodyEmptyItems []
      (.ok ("cs_test_1", "https://pay")) rfl).1 rfl
  · exact (session_rejects_empty_and_oversized bodyTooMany
      (List.replicate 101 .null) (.ok ("cs_test_1", "https://pay")) rfl).2
      (by simp)

end UrbanArt
